import Mathlib

/-!
Verification of the Slack streaming delivery core of vabole/openclaw.

Text is modelled as `List Char` (a JS string is a sequence of characters for
the purposes of this code: the operations used are emptiness tests, equality,
`startsWith`, `slice(length)`, concatenation and `trim`).

Source files embedded:
  * `src/slack/streaming.ts` — the Stream Session layer
    (`startSlackStream`, `appendSlackStream`, `stopSlackStream`);
  * `dispatchPreparedSlackMessage` and its closures
    (`resolveStreamDelta`, `stopStreamIfActive`, `deliverNormal`,
    `deliverWithOptionalStreaming`) from the Slack monitor dispatch module.

Transport effects are modelled by an oracle `φ : Nat → Bool` deciding whether
the n-th awaited transport call of a response succeeds, a running call
counter, and an explicit trace of the transport calls that were issued.
Fallible functions return `Except Unit` for thrown errors.
-/

/-- JS string falsiness / `Boolean(s)` for strings: false exactly on "". -/
def jsTruthy (s : List Char) : Bool := !s.isEmpty

/-- Whitespace as trimmed by JS `String.prototype.trim` (the characters that
occur in this code base: space, tab, newline, carriage return). -/
def isTrimmedSpace (c : Char) : Bool :=
  c = ' ' || c = '\t' || c = '\n' || c = '\r'

/-- JS `s.trim()`: strip whitespace from both ends. -/
def jsTrim (s : List Char) : List Char :=
  ((s.dropWhile isTrimmedSpace).reverse.dropWhile isTrimmedSpace).reverse

/-- The delta computation of `resolveStreamDelta` (monitor dispatch module,
source lines 782–801), made pure: the closure reads and writes the captured
variable `streamedText`, so the embedding takes the current `streamedText`
and returns `(returned delta, streamedText after the call)`.

Source:
```
const resolveStreamDelta = (nextText: string): string => \x7b
  if (!streamedText) \x7b streamedText = nextText; return nextText; \x7d
  if (nextText === streamedText) \x7b return ""; \x7d
  if (nextText.startsWith(streamedText)) \x7b
    const delta = nextText.slice(streamedText.length);
    streamedText = nextText; return delta; \x7d
  if (streamedText.startsWith(nextText)) \x7b streamedText = nextText; return ""; \x7d
  streamedText = `${streamedText}\n${nextText}`;
  return `\n${nextText}`; \x7d
```
-/
def resolveStreamDelta (streamedText nextText : List Char) : List Char × List Char :=
  if streamedText.isEmpty then (nextText, nextText)
  else if nextText = streamedText then ([], streamedText)
  else if streamedText <+: nextText then
    (nextText.drop streamedText.length, nextText)
  else if nextText <+: streamedText then ([], nextText)
  else ('\n' :: nextText, streamedText ++ '\n' :: nextText)

/-!
The Stream Session layer: `src/slack/streaming.ts`.

Awaited transport calls are decided by an oracle `φ : Nat → Bool` applied to
a running call counter (`φ k = true`: the k-th awaited transport call of the
response succeeds; `false`: it throws). Every attempted transport call is
recorded in the trace, whether or not it throws.
-/

deriving instance DecidableEq for Except

/-- One attempted transport call, as observed by the chat platform. -/
inductive TransportCall where
  | startStream (channel threadTs : List Char)
  | appendStream (text : List Char)
  | stopStream (finalText : Option (List Char))
  | send (text : Option (List Char)) (threadTs : Option (List Char))
  deriving DecidableEq

/-- Embedding of `SlackStreamSession` from `src/slack/streaming.ts`: the streamer handle
itself is modelled by the trace of calls made through it. -/
structure SlackStreamSession where
  channel : List Char
  threadTs : List Char
  stopped : Bool
  deriving DecidableEq

/-- Result of one session-layer operation: the thrown-or-ok outcome, the
session object after the call (mutated in place in the source), the call
counter afterwards, and the transport calls attempted. -/
structure SessionOpResult where
  result : Except Unit Unit
  session : SlackStreamSession
  calls : Nat
  trace : List TransportCall
  deriving DecidableEq

/-- Embedding of `appendSlackStream` (`src/slack/streaming.ts` lines 37–47): no-op when
the text is empty (JS falsy) or the session is already stopped; otherwise one
awaited `streamer.append` call that may throw. -/
def appendSlackStream (φ : Nat → Bool) (n : Nat) (session : SlackStreamSession)
    (text : List Char) : SessionOpResult :=
  if text.isEmpty || session.stopped then
    ⟨Except.ok (), session, n, []⟩
  else if φ n then
    ⟨Except.ok (), session, n + 1, [TransportCall.appendStream text]⟩
  else
    ⟨Except.error (), session, n + 1, [TransportCall.appendStream text]⟩

/-- Embedding of `stopSlackStream` (`src/slack/streaming.ts` lines 49–61): no-op when
already stopped; otherwise `stopped` is set to `true` BEFORE the awaited
`streamer.stop` call, whose argument drops a falsy (empty) final text. -/
def stopSlackStream (φ : Nat → Bool) (n : Nat) (session : SlackStreamSession)
    (text : Option (List Char)) : SessionOpResult :=
  if session.stopped then
    ⟨Except.ok (), session, n, []⟩
  else
    let s : SlackStreamSession := { session with stopped := true }
    let finalText : Option (List Char) :=
      match text with
      | some t => if t.isEmpty then none else some t
      | none => none
    if φ n then ⟨Except.ok (), s, n + 1, [TransportCall.stopStream finalText]⟩
    else ⟨Except.error (), s, n + 1, [TransportCall.stopStream finalText]⟩

/-- Result of `startSlackStream`: the session on success (the session object
does not escape when the seed append throws), counter, trace. -/
structure StartResult where
  result : Except Unit SlackStreamSession
  calls : Nat
  trace : List TransportCall
  deriving DecidableEq

/-- Embedding of `startSlackStream` (`src/slack/streaming.ts` lines 13–35): opens the
streamer (synchronous `client.chatStream`, recorded as `startStream`),
builds the session with `stopped := false`, and, when the optional seed text
is truthy (non-empty), immediately appends it via `appendSlackStream`; a
throw from that seed append propagates and the session object is lost. -/
def startSlackStream (φ : Nat → Bool) (n : Nat) (channel threadTs : List Char)
    (text : Option (List Char)) : StartResult :=
  let session : SlackStreamSession := ⟨channel, threadTs, false⟩
  let started := [TransportCall.startStream channel threadTs]
  match text with
  | some t =>
    if t.isEmpty then ⟨Except.ok session, n, started⟩
    else
      let r := appendSlackStream φ n session t
      match r.result with
      | Except.ok _ => ⟨Except.ok r.session, r.calls, started ++ r.trace⟩
      | Except.error _ => ⟨Except.error (), r.calls, started ++ r.trace⟩
  | none => ⟨Except.ok session, n, started⟩

/-!
The Thread-Target Planner and the Delivery Router
(`dispatchPreparedSlackMessage` in the Slack monitor dispatch module,
source lines 651–943).
-/

/-- Thread-target policy `replyToMode` (`all` / `first` / `off`). -/
inductive ThreadTargetMode where
  | all
  | first
  | off
  deriving DecidableEq

/-- Modelled from the spec: `resolveSlackThreadTs` lives in the replies
module, which is not among the reviewed sources (only its call sites are).
Spec §4.3: mode `off` always returns nothing; mode `all` always returns the
incoming thread identifier, falling back to the triggering message's own
identifier when the message started a new thread; mode `first` returns that
identifier only while `hasReplied` is false, and nothing afterwards. -/
def resolveSlackThreadTs (replyToMode : ThreadTargetMode)
    (incomingThreadTs messageTs : Option (List Char)) (hasReplied : Bool) :
    Option (List Char) :=
  match replyToMode with
  | ThreadTargetMode.off => none
  | ThreadTargetMode.all => incomingThreadTs.orElse fun _ => messageTs
  | ThreadTargetMode.first =>
    if hasReplied then none else incomingThreadTs.orElse fun _ => messageTs

/-- Modelled from the spec: the `ReplyDeliveryPlan` built by
`createSlackReplyDeliveryPlan` (replies module, not among the reviewed
sources). It holds the mode, the incoming thread identifier, the triggering
message's own identifier, and the shared `hasReplied` flag
(`hasRepliedRef` at source line 684). -/
structure ReplyDeliveryPlan where
  replyToMode : ThreadTargetMode
  incomingThreadTs : Option (List Char)
  messageTs : Option (List Char)
  hasReplied : Bool
  deriving DecidableEq

/-- Modelled from the spec: `plan.nextThreadTs()` is a pure function of the
current plan state (spec §3, §4.3). -/
def ReplyDeliveryPlan.nextThreadTs (p : ReplyDeliveryPlan) : Option (List Char) :=
  resolveSlackThreadTs p.replyToMode p.incomingThreadTs p.messageTs p.hasReplied

/-- Modelled from the spec: `plan.markSent()` sets `hasReplied = true` and is
the plan's only state mutation (spec §3, §4.3). -/
def ReplyDeliveryPlan.markSent (p : ReplyDeliveryPlan) : ReplyDeliveryPlan :=
  { p with hasReplied := true }

/-- One reply payload (`ReplyPayload`): text plus optional media references. -/
structure ReplyPayload where
  text : Option (List Char)
  mediaUrl : Option (List Char)
  mediaUrls : List (List Char)
  deriving DecidableEq

/-- Dispatch kind of a reply event; only the `tool` tag matters to the
router (`kind !== "tool"`, source line 810). -/
inductive ReplyDispatchKind where
  | tool
  | block
  | final
  deriving DecidableEq

/-- Embedding of `hasMedia` (source lines 647–649):
`Boolean(payload.mediaUrl) || (payload.mediaUrls?.length ?? 0) > 0`. -/
def hasMedia (p : ReplyPayload) : Bool :=
  (match p.mediaUrl with
   | some u => jsTruthy u
   | none => false) || !p.mediaUrls.isEmpty

/-- Modelled from the spec: `isSilentReplyText` (auto-reply tokens module,
not among the reviewed sources) — payload text matching the designated
silent-reply sentinel means "no visible output" (spec §6). -/
def isSilentReplyText (text token : List Char) : Bool := text == token

/-- Per-response fixed configuration of the Delivery Router: the
`useStreaming` decision, the channel, the values captured by the reply plan,
and the silent-reply sentinel. -/
structure RouterConfig where
  useStreaming : Bool
  channel : List Char
  replyToMode : ThreadTargetMode
  incomingThreadTs : Option (List Char)
  messageTs : Option (List Char)
  silentReplyToken : List Char

/-- Embedding of `useStreaming` (source lines 739–745): streaming is on for
the response when the account enables it AND the thread hint resolved before
the first reply (`hasReplied = false`) is a truthy string. -/
def computeUseStreaming (streamingEnabled : Bool) (replyToMode : ThreadTargetMode)
    (incomingThreadTs messageTs : Option (List Char)) : Bool :=
  streamingEnabled &&
    (match resolveSlackThreadTs replyToMode incomingThreadTs messageTs false with
     | some t => jsTruthy t
     | none => false)

/-- Mutable state captured by the router closures (source lines 684,
750–752): the active session, the sticky `streamFailed` flag, the tracked
snapshot `streamedText`, the shared `hasRepliedRef`, and the transport call
counter for the oracle. -/
structure RouterState where
  streamSession : Option SlackStreamSession
  streamFailed : Bool
  streamedText : List Char
  hasReplied : Bool
  calls : Nat
  deriving DecidableEq

/-- Router state at the start of a response. -/
def initialRouterState : RouterState :=
  ⟨none, false, [], false, 0⟩

/-- Embedding of `stopStreamIfActive` (source lines 754–767): no-op when no
session is tracked; otherwise `stopSlackStream` is awaited, a throw is
caught (setting the sticky `streamFailed` flag), and in all cases the
tracked session and snapshot text are cleared. Never throws. -/
def stopStreamIfActive (φ : Nat → Bool) (st : RouterState) :
    RouterState × List TransportCall :=
  match st.streamSession with
  | none => (st, [])
  | some session =>
    let r := stopSlackStream φ st.calls session none
    match r.result with
    | Except.ok _ =>
      ({ st with streamSession := none, streamedText := [], calls := r.calls },
        r.trace)
    | Except.error _ =>
      ({ st with streamSession := none, streamedText := [],
                 streamFailed := true, calls := r.calls }, r.trace)

/-- Embedding of `deliverNormal` (source lines 769–780): one discrete send of
the payload addressed to the conversation with `replyThreadTs` as its thread
attachment, then `replyPlan.markSent()`. The transport send is performed by
`deliverReplies`, which is not among the reviewed sources; modelled from the
spec: a standalone `sendMessage` that may fail, in which case the error
propagates and `markSent` does not run. -/
def deliverNormal (φ : Nat → Bool) (st : RouterState) (payload : ReplyPayload)
    (replyThreadTs : Option (List Char)) :
    Except Unit Unit × RouterState × List TransportCall :=
  if φ st.calls then
    (Except.ok (), { st with hasReplied := true, calls := st.calls + 1 },
      [TransportCall.send payload.text replyThreadTs])
  else
    (Except.error (), { st with calls := st.calls + 1 },
      [TransportCall.send payload.text replyThreadTs])

/-- Fallback path shared by the ineligible branches and the catch handler of
`deliverWithOptionalStreaming`: stop any active session, then deliver the
payload discretely. -/
def routerFallbackDiscrete (φ : Nat → Bool) (st : RouterState)
    (payload : ReplyPayload) (replyThreadTs : Option (List Char)) :
    Except Unit Unit × RouterState × List TransportCall :=
  let c := stopStreamIfActive φ st
  let d := deliverNormal φ c.1 payload replyThreadTs
  (d.1, d.2.1, c.2 ++ d.2.2)

/-- Start-a-new-stream branch of the `try` block (source lines 828–836) with
its catch handler (lines 847–852): stop any existing session, start a new
one seeded with the current text and record the text as the new snapshot;
on a throw from the start (the seed append), set the sticky `streamFailed`
flag, stop defensively (the tracked session is still `none`, so this is a
no-op) and fall back to discrete delivery of the payload. -/
def routerStartStream (cfg : RouterConfig) (φ : Nat → Bool) (st : RouterState)
    (payload : ReplyPayload) (replyThreadTs : Option (List Char))
    (ets text : List Char) :
    Except Unit Unit × RouterState × List TransportCall :=
  let c := stopStreamIfActive φ st
  let r := startSlackStream φ c.1.calls cfg.channel ets (some text)
  match r.result with
  | Except.ok session =>
    (Except.ok (),
      { c.1 with streamSession := some session, streamedText := text,
                 hasReplied := true, calls := r.calls }, c.2 ++ r.trace)
  | Except.error _ =>
    let stE := { c.1 with streamFailed := true, calls := r.calls }
    let f := routerFallbackDiscrete φ stE payload replyThreadTs
    (f.1, f.2.1, c.2 ++ r.trace ++ f.2.2)

/-- Embedding of `deliverWithOptionalStreaming` (source lines 803–853). Per
reply event: resolve the thread target from the plan, trim it and the
payload text, compute streaming eligibility in source order
(`useStreaming && !streamFailed && kind !== "tool" && !hasMedia &&
Boolean(effectiveThreadTs) && Boolean(text) && !isSilentReplyText`); when
ineligible, stop any active session and deliver discretely; when eligible,
start a new session if none is active or the active one targets a different
thread, otherwise append the delta (when non-empty) computed against the
tracked snapshot; any throw from start/append sets the sticky `streamFailed`
flag, stops defensively and falls back to discrete delivery. -/
def deliverWithOptionalStreaming (cfg : RouterConfig) (φ : Nat → Bool)
    (st : RouterState) (payload : ReplyPayload) (kind : ReplyDispatchKind) :
    Except Unit Unit × RouterState × List TransportCall :=
  let replyThreadTs := resolveSlackThreadTs cfg.replyToMode cfg.incomingThreadTs
    cfg.messageTs st.hasReplied
  let effectiveThreadTs : Option (List Char) :=
    match replyThreadTs with
    | some t => if (jsTrim t).isEmpty then none else some (jsTrim t)
    | none => none
  let text := (payload.text.map jsTrim).getD []
  let canStreamText : Bool :=
    cfg.useStreaming && !st.streamFailed &&
    (match kind with
     | ReplyDispatchKind.tool => false
     | _ => true) &&
    !hasMedia payload && effectiveThreadTs.isSome && jsTruthy text &&
    !isSilentReplyText text cfg.silentReplyToken
  if !canStreamText then
    routerFallbackDiscrete φ st payload replyThreadTs
  else
    match effectiveThreadTs with
    | none => routerFallbackDiscrete φ st payload replyThreadTs
    | some ets =>
      match st.streamSession with
      | none => routerStartStream cfg φ st payload replyThreadTs ets text
      | some session =>
        if session.threadTs ≠ ets then
          routerStartStream cfg φ st payload replyThreadTs ets text
        else
          let d := resolveStreamDelta st.streamedText text
          let stD := { st with streamedText := d.2 }
          if d.1.isEmpty then
            (Except.ok (), { stD with hasReplied := true }, [])
          else
            let r := appendSlackStream φ stD.calls session d.1
            match r.result with
            | Except.ok _ =>
              (Except.ok (), { stD with hasReplied := true, calls := r.calls },
                r.trace)
            | Except.error _ =>
              let stE := { stD with streamFailed := true, calls := r.calls }
              let f := routerFallbackDiscrete φ stE payload replyThreadTs
              (f.1, f.2.1, r.trace ++ f.2.2)

/-- Modelled from the spec: the reply dispatcher
(`createReplyDispatcherWithTyping`, not among the reviewed sources) calls
`deliverWithOptionalStreaming` once per reply event in emission order and,
on a delivery error, logs and continues with the remaining events
(spec §4.5). -/
def processEvents (cfg : RouterConfig) (φ : Nat → Bool) :
    RouterState → List (ReplyPayload × ReplyDispatchKind) →
    RouterState × List TransportCall
  | st, [] => (st, [])
  | st, e :: rest =>
    let r := deliverWithOptionalStreaming cfg φ st e.1 e.2
    let rr := processEvents cfg φ r.2.1 rest
    (rr.1, r.2.2 ++ rr.2)

/-- Embedding of the response dispatch around `dispatchInboundMessage`
(source lines 867–889): the reply events of one response are processed (the
upstream generator may then raise, modelled by `generatorThrows`), and the
`finally` block awaits `stopStreamIfActive` on every exit path before the
result — or the exception — propagates. The event sequence itself is
produced by the generator, which is not among the reviewed sources; spec §6
models it as an arbitrary finite sequence of `(payload, kind)` events. -/
def dispatchResponse (cfg : RouterConfig) (φ : Nat → Bool) (st : RouterState)
    (events : List (ReplyPayload × ReplyDispatchKind)) (generatorThrows : Bool) :
    Except Unit Unit × RouterState × List TransportCall :=
  let r := processEvents cfg φ st events
  let c := stopStreamIfActive φ r.1
  ((if generatorThrows then Except.error () else Except.ok ()), c.1, r.2 ++ c.2)


/-! Theorems. -/

/-- Helper: `a ++ b = a` forces `b = []` (length argument). -/
theorem append_eq_self_iff_right_nil (a b : List Char) : a ++ b = a ↔ b = [] := by
  constructor
  · intro h
    have hl : a.length + b.length = a.length := by
      simpa [List.length_append] using congrArg List.length h
    have : b.length = 0 := by omega
    exact List.length_eq_zero.mp this
  · intro h; simp [h]

/-- C1. The Delta Resolver algebra: an empty previous snapshot yields the
full next text; an unchanged snapshot yields an empty delta; a pure
extension yields exactly the added suffix; a shrink to a prefix yields an
empty delta (never a negative one). -/
theorem c1_resolveStreamDelta_algebra (a b : List Char) :
    (resolveStreamDelta [] a).1 = a ∧
    (resolveStreamDelta a a).1 = [] ∧
    (resolveStreamDelta a (a ++ b)).1 = b ∧
    (resolveStreamDelta (a ++ b) a).1 = [] := by
  refine ⟨by simp [resolveStreamDelta], ?_, ?_, ?_⟩
  · by_cases ha : a = []
    · simp [resolveStreamDelta, ha]
    · simp [resolveStreamDelta, ha, List.isEmpty_iff]
  · by_cases ha : a = []
    · simp [resolveStreamDelta, ha]
    · by_cases hb : b = []
      · simp [resolveStreamDelta, ha, hb, List.isEmpty_iff]
      · have hne : a ++ b ≠ a := fun h => hb ((append_eq_self_iff_right_nil a b).mp h)
        simp [resolveStreamDelta, ha, hne, List.isEmpty_iff, List.prefix_append,
          List.drop_left]
  · by_cases hab : a ++ b = []
    · have ha : a = [] := (List.append_eq_nil.mp hab).1
      have hb : b = [] := (List.append_eq_nil.mp hab).2
      simp [resolveStreamDelta, ha, hb]
    · by_cases hb : b = []
      · simp only [resolveStreamDelta, hb, List.append_nil, List.isEmpty_iff, hab,
          if_false, if_pos rfl]
        split <;> simp_all
      · have hne : a ≠ a ++ b := fun h => hb ((append_eq_self_iff_right_nil a b).mp h.symm)
        have hnp : ¬(a ++ b <+: a) := by
          intro hp
          have hle := hp.length_le
          rw [List.length_append] at hle
          have hz : b.length = 0 := by omega
          exact hb (List.length_eq_zero.mp hz)
        simp [resolveStreamDelta, hab, hne, hnp, List.isEmpty_iff, List.prefix_append]

/-- C2 counterexample. At previous snapshot "a" and next text "b" (divergent,
no prefix relationship in either direction) the delta is "\n" ++ "b" as
claimed, but the tracked snapshot is NOT replaced wholesale with "b": it
becomes "a\nb". -/
theorem c2_counterexample :
    ("a".toList ≠ [] ∧ "b".toList ≠ "a".toList ∧
      ¬("a".toList <+: "b".toList) ∧ ¬("b".toList <+: "a".toList)) ∧
    (resolveStreamDelta "a".toList "b".toList).2 ≠ "b".toList ∧
    (resolveStreamDelta "a".toList "b".toList).2 = "a\nb".toList := by
  refine ⟨⟨?_, ?_, ?_, ?_⟩, ?_, ?_⟩ <;> decide

/-- C2 amended. On a divergent transition (previous non-empty, next distinct
from previous, neither a prefix of the other) the delta is a newline followed
by the full next text, and the tracked snapshot becomes the previous snapshot
followed by a newline and the next text (the concatenation the live message
now shows), not the next text alone. -/
theorem c2_divergent_transition (prev next : List Char)
    (hne : prev ≠ []) (hdiff : next ≠ prev)
    (hp1 : ¬(prev <+: next)) (hp2 : ¬(next <+: prev)) :
    resolveStreamDelta prev next = ('\n' :: next, prev ++ '\n' :: next) := by
  simp [resolveStreamDelta, hne, hdiff, hp1, hp2, List.isEmpty_iff]

/-- C2 amended, witness: the general divergent-transition theorem applied at
previous "a", next "b". -/
theorem c2_divergent_transition_witness :
    resolveStreamDelta "a".toList "b".toList =
      ('\n' :: "b".toList, "a".toList ++ '\n' :: "b".toList) :=
  c2_divergent_transition "a".toList "b".toList (by decide) (by decide)
    (by decide) (by decide)

/-- C6. Session invariants: append with empty text or on a stopped session is
a transport-free no-op; the first stop on a live session sets `stopped` and
issues exactly one transport stop call; stop on a stopped session is a
transport-free no-op; append never changes the session object; after any
stop the session is stopped (the flag moves only `false → true`: append
preserves it, stop only raises it). -/
theorem c6_session_invariants (φ : Nat → Bool) (n : Nat) (s : SlackStreamSession)
    (t : List Char) (f : Option (List Char)) :
    (t = [] ∨ s.stopped = true →
      appendSlackStream φ n s t = ⟨Except.ok (), s, n, []⟩) ∧
    (s.stopped = false →
      (stopSlackStream φ n s f).session = { s with stopped := true } ∧
      (stopSlackStream φ n s f).trace =
        [TransportCall.stopStream
          (match f with
           | some ft => if ft.isEmpty then none else some ft
           | none => none)]) ∧
    (s.stopped = true → stopSlackStream φ n s f = ⟨Except.ok (), s, n, []⟩) ∧
    (appendSlackStream φ n s t).session = s ∧
    (stopSlackStream φ n s f).session.stopped = true := by
  refine ⟨?_, ?_, ?_, ?_, ?_⟩
  · rintro (rfl | hs)
    · simp [appendSlackStream]
    · simp [appendSlackStream, hs]
  · intro hs
    simp only [stopSlackStream, hs, if_false, Bool.false_eq_true]
    split <;> simp
  · intro hs; simp [stopSlackStream, hs]
  · simp only [appendSlackStream]
    split
    · rfl
    · split <;> rfl
  · simp only [stopSlackStream]
    split
    · simp_all
    · split <;> rfl

/-- C6 witness: the invariants applied on a concrete stopped session (append
and stop are transport-free no-ops there) and on a concrete live session
(the first stop marks it stopped with exactly one transport stop call). -/
theorem c6_session_invariants_witness :
    appendSlackStream (fun _ => true) 0 ⟨"C1".toList, "123".toList, true⟩ "x".toList =
      ⟨Except.ok (), ⟨"C1".toList, "123".toList, true⟩, 0, []⟩ ∧
    stopSlackStream (fun _ => true) 0 ⟨"C1".toList, "123".toList, true⟩ none =
      ⟨Except.ok (), ⟨"C1".toList, "123".toList, true⟩, 0, []⟩ ∧
    (stopSlackStream (fun _ => true) 0 ⟨"C1".toList, "123".toList, false⟩ none).session =
      ⟨"C1".toList, "123".toList, true⟩ ∧
    (stopSlackStream (fun _ => true) 0 ⟨"C1".toList, "123".toList, false⟩ none).trace =
      [TransportCall.stopStream none] := by
  have h1 := c6_session_invariants (fun _ => true) 0 ⟨"C1".toList, "123".toList, true⟩
    "x".toList none
  have h2 := c6_session_invariants (fun _ => true) 0 ⟨"C1".toList, "123".toList, false⟩
    "x".toList none
  exact ⟨h1.1 (Or.inr rfl), h1.2.2.1 rfl, (h2.2.1 rfl).1, (h2.2.1 rfl).2⟩

/-- C10. The function `stopSlackStream` marks the session stopped before the awaited
transport stop; when that call throws, the error is reported but the session
is already stopped, so every subsequent append or stop on it is a no-op
performing no transport call. -/
theorem c10_stopped_survives_failed_stop (φ : Nat → Bool) (n : Nat)
    (s : SlackStreamSession) (f : Option (List Char))
    (hφ : φ n = false) (hs : s.stopped = false) :
    (stopSlackStream φ n s f).result = Except.error () ∧
    (stopSlackStream φ n s f).session.stopped = true ∧
    (∀ φ2 m t, appendSlackStream φ2 m (stopSlackStream φ n s f).session t =
      ⟨Except.ok (), (stopSlackStream φ n s f).session, m, []⟩) ∧
    (∀ φ2 m g, stopSlackStream φ2 m (stopSlackStream φ n s f).session g =
      ⟨Except.ok (), (stopSlackStream φ n s f).session, m, []⟩) := by
  have hsession : (stopSlackStream φ n s f).session = { s with stopped := true } := by
    simp only [stopSlackStream, hs, if_false, Bool.false_eq_true]
    split <;> rfl
  refine ⟨?_, ?_, ?_, ?_⟩
  · simp [stopSlackStream, hs, hφ]
  · simp [hsession]
  · intro φ2 m t
    rw [hsession]
    simp [appendSlackStream]
  · intro φ2 m g
    rw [hsession]
    simp [stopSlackStream]

/-- C10 witness: a failing transport stop on a concrete live session leaves
it stopped, and a later append on it is a transport-free no-op. -/
theorem c10_stopped_survives_failed_stop_witness :
    (stopSlackStream (fun _ => false) 0 ⟨"C1".toList, "123".toList, false⟩ none).result =
      Except.error () ∧
    (stopSlackStream (fun _ => false) 0 ⟨"C1".toList, "123".toList, false⟩ none).session.stopped =
      true ∧
    appendSlackStream (fun _ => true) 1
        (stopSlackStream (fun _ => false) 0 ⟨"C1".toList, "123".toList, false⟩ none).session
        "y".toList =
      ⟨Except.ok (),
        (stopSlackStream (fun _ => false) 0 ⟨"C1".toList, "123".toList, false⟩ none).session,
        1, []⟩ := by
  have h := c10_stopped_survives_failed_stop (fun _ => false) 0
    ⟨"C1".toList, "123".toList, false⟩ none rfl rfl
  exact ⟨h.1, h.2.1, h.2.2.1 (fun _ => true) 1 "y".toList⟩

/-- Helper: `deliverNormal` always attempts exactly one discrete send of the
payload to the given thread target. -/
theorem deliverNormal_trace (φ : Nat → Bool) (st : RouterState)
    (payload : ReplyPayload) (t : Option (List Char)) :
    (deliverNormal φ st payload t).2.2 = [TransportCall.send payload.text t] := by
  simp only [deliverNormal]
  split <;> rfl

/-- Helper: `deliverNormal` touches only `hasReplied` and the call counter. -/
theorem deliverNormal_state (φ : Nat → Bool) (st : RouterState)
    (payload : ReplyPayload) (t : Option (List Char)) :
    (deliverNormal φ st payload t).2.1.streamSession = st.streamSession ∧
    (deliverNormal φ st payload t).2.1.streamFailed = st.streamFailed ∧
    (deliverNormal φ st payload t).2.1.streamedText = st.streamedText := by
  simp only [deliverNormal]
  split <;> exact ⟨rfl, rfl, rfl⟩

/-- Helper: `stopStreamIfActive` with no tracked session is a pure no-op. -/
theorem stopStreamIfActive_none (φ : Nat → Bool) (st : RouterState)
    (hs : st.streamSession = none) : stopStreamIfActive φ st = (st, []) := by
  simp [stopStreamIfActive, hs]

/-- Helper: `stopStreamIfActive` always leaves no tracked session, and leaves
an empty tracked snapshot whenever the state satisfies the router invariant
"no session implies empty snapshot". -/
theorem stopStreamIfActive_clears (φ : Nat → Bool) (st : RouterState)
    (hinv : st.streamSession = none → st.streamedText = []) :
    (stopStreamIfActive φ st).1.streamSession = none ∧
    (stopStreamIfActive φ st).1.streamedText = [] := by
  match hs : st.streamSession with
  | none => simp [stopStreamIfActive_none φ st hs, hs, hinv hs]
  | some session =>
    simp only [stopStreamIfActive, hs]
    split <;> exact ⟨rfl, rfl⟩

/-- Helper: once the sticky `streamFailed` flag is set and no session is
tracked, a reply event is exactly a discrete `deliverNormal` of the payload
to the plan's current thread target. -/
theorem streamFailed_forces_discrete (cfg : RouterConfig) (φ : Nat → Bool)
    (st : RouterState) (payload : ReplyPayload) (kind : ReplyDispatchKind)
    (hf : st.streamFailed = true) (hs : st.streamSession = none) :
    deliverWithOptionalStreaming cfg φ st payload kind =
      deliverNormal φ st payload
        (resolveSlackThreadTs cfg.replyToMode cfg.incomingThreadTs cfg.messageTs
          st.hasReplied) := by
  simp [deliverWithOptionalStreaming, hf, routerFallbackDiscrete,
    stopStreamIfActive_none φ st hs]

/-- C8. With thread-target mode `first`, a plan that has not yet replied
resolves the incoming thread identifier; after `markSent` every later reply
of the same response resolves no target; `markSent` is idempotent (a second
call changes nothing and `hasReplied` stays true). -/
theorem c8_first_mode_threading (p : ReplyDeliveryPlan) (incoming : List Char)
    (hmode : p.replyToMode = ThreadTargetMode.first)
    (hfresh : p.hasReplied = false)
    (hin : p.incomingThreadTs = some incoming) :
    p.nextThreadTs = some incoming ∧
    p.markSent.nextThreadTs = none ∧
    p.markSent.markSent = p.markSent ∧
    p.markSent.hasReplied = true := by
  refine ⟨?_, ?_, rfl, rfl⟩
  · simp [ReplyDeliveryPlan.nextThreadTs, resolveSlackThreadTs, hmode, hfresh, hin,
      Option.orElse]
  · simp [ReplyDeliveryPlan.nextThreadTs, ReplyDeliveryPlan.markSent,
      resolveSlackThreadTs, hmode]

/-- C8 witness: the first-mode plan facts at a concrete plan with incoming
thread "123" and message timestamp "456". -/
theorem c8_first_mode_threading_witness :
    (⟨ThreadTargetMode.first, some "123".toList, some "456".toList, false⟩ :
        ReplyDeliveryPlan).nextThreadTs = some "123".toList ∧
    (⟨ThreadTargetMode.first, some "123".toList, some "456".toList, false⟩ :
        ReplyDeliveryPlan).markSent.nextThreadTs = none ∧
    (⟨ThreadTargetMode.first, some "123".toList, some "456".toList, false⟩ :
        ReplyDeliveryPlan).markSent.markSent =
      (⟨ThreadTargetMode.first, some "123".toList, some "456".toList, false⟩ :
        ReplyDeliveryPlan).markSent :=
  have h := c8_first_mode_threading
    ⟨ThreadTargetMode.first, some "123".toList, some "456".toList, false⟩
    "123".toList rfl rfl rfl
  ⟨h.1, h.2.1, h.2.2.1⟩

/-- C7. With thread-target mode `off` the resolved thread target is empty:
the `useStreaming` decision of source line 745 is false whatever the
streaming configuration, and a reply event on a session-free state is
exactly one discrete send carrying no thread attachment (no stream
transport call at all), leaving no session tracked. -/
theorem c7_mode_off_discrete (cfg : RouterConfig) (φ : Nat → Bool)
    (st : RouterState) (payload : ReplyPayload) (kind : ReplyDispatchKind)
    (streamingEnabled : Bool) (incoming messageTs : Option (List Char))
    (hmode : cfg.replyToMode = ThreadTargetMode.off)
    (hsession : st.streamSession = none) :
    computeUseStreaming streamingEnabled ThreadTargetMode.off incoming messageTs
      = false ∧
    (deliverWithOptionalStreaming cfg φ st payload kind).2.2 =
      [TransportCall.send payload.text none] ∧
    (deliverWithOptionalStreaming cfg φ st payload kind).2.1.streamSession = none := by
  have hmain : deliverWithOptionalStreaming cfg φ st payload kind =
      deliverNormal φ st payload none := by
    simp [deliverWithOptionalStreaming, hmode, resolveSlackThreadTs,
      routerFallbackDiscrete, stopStreamIfActive_none φ st hsession]
  refine ⟨?_, ?_, ?_⟩
  · simp [computeUseStreaming, resolveSlackThreadTs]
  · rw [hmain, deliverNormal_trace]
  · rw [hmain]
    rw [(deliverNormal_state φ st payload none).1]
    exact hsession

/-- C7 witness: the mode-`off` facts at a concrete configuration with
streaming enabled, a concrete payload and the initial router state. -/
theorem c7_mode_off_discrete_witness :
    computeUseStreaming true ThreadTargetMode.off (some "9".toList)
      (some "8".toList) = false ∧
    (deliverWithOptionalStreaming
        ⟨true, "C1".toList, ThreadTargetMode.off, some "9".toList,
          some "8".toList, "NO_REPLY".toList⟩
        (fun _ => true) initialRouterState
        ⟨some "hi".toList, none, []⟩ ReplyDispatchKind.block).2.2 =
      [TransportCall.send (some "hi".toList) none] :=
  have h := c7_mode_off_discrete
    ⟨true, "C1".toList, ThreadTargetMode.off, some "9".toList, some "8".toList,
      "NO_REPLY".toList⟩
    (fun _ => true) initialRouterState ⟨some "hi".toList, none, []⟩
    ReplyDispatchKind.block true (some "9".toList) (some "8".toList) rfl rfl
  ⟨h.1, h.2.1⟩

/-- C5. Streaming happy path: two streaming-eligible block events with texts
"first block" then "first block second block" produce exactly one stream
start, a first append carrying the full initial text, a second append
carrying only the added suffix, no discrete send, and exactly one stream
stop (at teardown); the response ends with no session tracked. -/
theorem c5_streaming_happy_path :
    dispatchResponse
      ⟨true, "C1".toList, ThreadTargetMode.all, none, some "123".toList,
        "NO_REPLY".toList⟩
      (fun _ => true) initialRouterState
      [(⟨some "first block".toList, none, []⟩, ReplyDispatchKind.block),
       (⟨some "first block second block".toList, none, []⟩,
         ReplyDispatchKind.block)]
      false =
    (Except.ok (), ⟨none, false, [], true, 3⟩,
      [TransportCall.startStream "C1".toList "123".toList,
       TransportCall.appendStream "first block".toList,
       TransportCall.appendStream " second block".toList,
       TransportCall.stopStream none]) := by
  rfl

/-- Helper: with the sticky `streamFailed` flag set, no session tracked and
mode `all`, every remaining event of the response is exactly one discrete
send to the fixed thread target, and the flag and session-free state
persist. -/
theorem processEvents_streamFailed_all (cfg : RouterConfig) (φ : Nat → Bool)
    (hmode : cfg.replyToMode = ThreadTargetMode.all) :
    ∀ (events : List (ReplyPayload × ReplyDispatchKind)) (st : RouterState),
    st.streamFailed = true → st.streamSession = none →
    (processEvents cfg φ st events).2 =
      events.map (fun e => TransportCall.send e.1.text
        (cfg.incomingThreadTs.orElse fun _ => cfg.messageTs)) ∧
    (processEvents cfg φ st events).1.streamFailed = true ∧
    (processEvents cfg φ st events).1.streamSession = none := by
  intro events
  induction events with
  | nil => intro st hf hs; exact ⟨rfl, hf, hs⟩
  | cons e rest ih =>
    intro st hf hs
    have hstep := streamFailed_forces_discrete cfg φ st e.1 e.2 hf hs
    have hnorm := deliverNormal_state φ st e.1
      (resolveSlackThreadTs cfg.replyToMode cfg.incomingThreadTs cfg.messageTs
        st.hasReplied)
    have hf1 : (deliverWithOptionalStreaming cfg φ st e.1 e.2).2.1.streamFailed =
        true := by rw [hstep, hnorm.2.1]; exact hf
    have hs1 : (deliverWithOptionalStreaming cfg φ st e.1 e.2).2.1.streamSession =
        none := by rw [hstep, hnorm.1]; exact hs
    have hrec := ih (deliverWithOptionalStreaming cfg φ st e.1 e.2).2.1 hf1 hs1
    have hunf : processEvents cfg φ st (e :: rest) =
        ((processEvents cfg φ (deliverWithOptionalStreaming cfg φ st e.1 e.2).2.1
            rest).1,
          (deliverWithOptionalStreaming cfg φ st e.1 e.2).2.2 ++
            (processEvents cfg φ (deliverWithOptionalStreaming cfg φ st e.1 e.2).2.1
              rest).2) := rfl
    rw [hunf]
    refine ⟨?_, hrec.2.1, hrec.2.2⟩
    rw [hrec.1, hstep, deliverNormal_trace, hmode]
    rfl

/-- C3. If the first append transport call of the response (the seed append
of the first started stream) fails, the start throws before the session is
recorded, so the router tracks no active session, the failed payload falls
back to a discrete send to the original thread target, and — the sticky
`streamFailed` flag being set — every subsequent payload of the response is
one discrete send to that target, with no stream start or append ever
attempted again. Oracle: call 0 (the seed append) fails, all later calls
succeed. -/
theorem c3_first_append_failure_fallback
    (rest : List (ReplyPayload × ReplyDispatchKind)) :
    let cfg : RouterConfig := ⟨true, "C1".toList, ThreadTargetMode.all, none,
      some "123".toList, "NO_REPLY".toList⟩
    let φ : Nat → Bool := fun n => n != 0
    let step := deliverWithOptionalStreaming cfg φ initialRouterState
      ⟨some "first block".toList, none, []⟩ ReplyDispatchKind.block
    step.2.2 = [TransportCall.startStream "C1".toList "123".toList,
        TransportCall.appendStream "first block".toList,
        TransportCall.send (some "first block".toList) (some "123".toList)] ∧
    step.1 = Except.ok () ∧
    step.2.1 = ⟨none, true, [], true, 2⟩ ∧
    (processEvents cfg φ step.2.1 rest).2 =
      rest.map (fun e => TransportCall.send e.1.text (some "123".toList)) ∧
    (processEvents cfg φ step.2.1 rest).1.streamFailed = true := by
  intro cfg φ step
  have hst : step.2.1 = ⟨none, true, [], true, 2⟩ := by rfl
  have hrest := processEvents_streamFailed_all cfg φ rfl rest step.2.1
    (by rw [hst]) (by rw [hst])
  refine ⟨by rfl, by rfl, hst, ?_, hrest.2.1⟩
  rw [hrest.1]
  rfl

/-- C9. If stopping the active stream session throws, the router catches the
error: `stopStreamIfActive` returns normally with the tracked session and
snapshot cleared, the call counter advanced past the attempted transport
stop, and the sticky `streamFailed` flag set — after which (stated here for
mode `all`) every later payload of the response is one discrete send even
though only the stop call failed. -/
theorem c9_stop_failure_sets_sticky_flag (cfg : RouterConfig) (φ : Nat → Bool)
    (st : RouterState) (session : SlackStreamSession)
    (payload : ReplyPayload) (kind : ReplyDispatchKind)
    (hs : st.streamSession = some session) (hlive : session.stopped = false)
    (hφ : φ st.calls = false) (hmode : cfg.replyToMode = ThreadTargetMode.all) :
    stopStreamIfActive φ st =
      ({ st with streamSession := none, streamedText := [],
                 streamFailed := true, calls := st.calls + 1 },
        [TransportCall.stopStream none]) ∧
    ∀ φ2, (deliverWithOptionalStreaming cfg φ2 (stopStreamIfActive φ st).1
        payload kind).2.2 =
      [TransportCall.send payload.text
        (cfg.incomingThreadTs.orElse fun _ => cfg.messageTs)] := by
  have hstop : stopStreamIfActive φ st =
      ({ st with streamSession := none, streamedText := [],
                 streamFailed := true, calls := st.calls + 1 },
        [TransportCall.stopStream none]) := by
    simp [stopStreamIfActive, hs, stopSlackStream, hlive, hφ]
  refine ⟨hstop, fun φ2 => ?_⟩
  rw [streamFailed_forces_discrete cfg φ2 (stopStreamIfActive φ st).1 payload kind
    (by rw [hstop]) (by rw [hstop]), deliverNormal_trace, hmode]
  rfl

/-- C9 witness: a failing transport stop on a concrete state with a live
session yields the cleared-and-flagged state, and the next payload of the
response goes out as one discrete send. -/
theorem c9_stop_failure_sets_sticky_flag_witness :
    stopStreamIfActive (fun _ => false)
        ⟨some ⟨"C1".toList, "123".toList, false⟩, false, "first block".toList,
          true, 2⟩ =
      (⟨none, true, [], true, 3⟩, [TransportCall.stopStream none]) ∧
    (deliverWithOptionalStreaming
        ⟨true, "C1".toList, ThreadTargetMode.all, none, some "123".toList,
          "NO_REPLY".toList⟩
        (fun _ => true)
        (stopStreamIfActive (fun _ => false)
          ⟨some ⟨"C1".toList, "123".toList, false⟩, false, "first block".toList,
            true, 2⟩).1
        ⟨some "next".toList, none, []⟩ ReplyDispatchKind.block).2.2 =
      [TransportCall.send (some "next".toList) (some "123".toList)] := by
  have h := c9_stop_failure_sets_sticky_flag
    ⟨true, "C1".toList, ThreadTargetMode.all, none, some "123".toList,
      "NO_REPLY".toList⟩
    (fun _ => false)
    ⟨some ⟨"C1".toList, "123".toList, false⟩, false, "first block".toList,
      true, 2⟩
    ⟨"C1".toList, "123".toList, false⟩
    ⟨some "next".toList, none, []⟩ ReplyDispatchKind.block
    rfl rfl rfl rfl
  exact ⟨h.1, h.2 (fun _ => true)⟩

/-- Helper: the fallback path leaves no session and an empty snapshot
whenever the input state satisfies the router invariant "no tracked session
implies empty tracked snapshot". -/
theorem routerFallbackDiscrete_inv (φ : Nat → Bool) (st : RouterState)
    (payload : ReplyPayload) (t : Option (List Char))
    (hinv : st.streamSession = none → st.streamedText = []) :
    (routerFallbackDiscrete φ st payload t).2.1.streamSession = none ∧
    (routerFallbackDiscrete φ st payload t).2.1.streamedText = [] := by
  have hstop := stopStreamIfActive_clears φ st hinv
  have hnorm := deliverNormal_state φ (stopStreamIfActive φ st).1 payload t
  constructor
  · show (deliverNormal φ (stopStreamIfActive φ st).1 payload t).2.1.streamSession
      = none
    rw [hnorm.1]; exact hstop.1
  · show (deliverNormal φ (stopStreamIfActive φ st).1 payload t).2.1.streamedText
      = []
    rw [hnorm.2.2]; exact hstop.2

/-- Helper: the start-a-new-stream branch preserves the router invariant. -/
theorem routerStartStream_inv (cfg : RouterConfig) (φ : Nat → Bool)
    (st : RouterState) (payload : ReplyPayload) (t : Option (List Char))
    (ets text : List Char)
    (hinv : st.streamSession = none → st.streamedText = []) :
    ((routerStartStream cfg φ st payload t ets text).2.1.streamSession = none →
      (routerStartStream cfg φ st payload t ets text).2.1.streamedText = []) := by
  have hc := stopStreamIfActive_clears φ st hinv
  unfold routerStartStream
  cases hr : (startSlackStream φ (stopStreamIfActive φ st).1.calls cfg.channel ets
      (some text)).result with
  | ok session => simp [hr]
  | error e =>
    simp only [hr]
    intro _
    exact (routerFallbackDiscrete_inv φ
      { (stopStreamIfActive φ st).1 with streamFailed := true,
                                         calls := (startSlackStream φ
                                           (stopStreamIfActive φ st).1.calls
                                           cfg.channel ets (some text)).calls }
      payload t (fun _ => hc.2)).2

/-- Helper: every reply event preserves the router invariant "no tracked
session implies empty tracked snapshot". -/
theorem deliverWithOptionalStreaming_inv (cfg : RouterConfig) (φ : Nat → Bool)
    (st : RouterState) (payload : ReplyPayload) (kind : ReplyDispatchKind)
    (hinv : st.streamSession = none → st.streamedText = []) :
    ((deliverWithOptionalStreaming cfg φ st payload kind).2.1.streamSession = none →
      (deliverWithOptionalStreaming cfg φ st payload kind).2.1.streamedText = []) := by
  cases kind
  all_goals (
    simp only [deliverWithOptionalStreaming]
    repeat' split
    all_goals (
      first
      | exact fun _ => (routerFallbackDiscrete_inv φ st payload _ hinv).2
      | exact routerStartStream_inv cfg φ st payload _ _ _ hinv
      | (intro _
         refine (routerFallbackDiscrete_inv φ _ payload _ (fun hnone => ?_)).2
         simp_all
         done)
      | (intro h
         simp_all
         done)))

/-- Helper: the router invariant "no tracked session implies empty tracked
snapshot" is preserved across a whole sequence of reply events. -/
theorem processEvents_inv (cfg : RouterConfig) (φ : Nat → Bool) :
    ∀ (events : List (ReplyPayload × ReplyDispatchKind)) (st : RouterState),
    (st.streamSession = none → st.streamedText = []) →
    ((processEvents cfg φ st events).1.streamSession = none →
      (processEvents cfg φ st events).1.streamedText = []) := by
  intro events
  induction events with
  | nil => intro st h; exact h
  | cons e rest ih =>
    intro st h
    exact ih (deliverWithOptionalStreaming cfg φ st e.1 e.2).2.1
      (deliverWithOptionalStreaming_inv cfg φ st e.1 e.2 h)

/-- C4. Teardown guarantee: for every configuration, oracle, sequence of
reply events and generator outcome (normal completion, or a throw after the
events), the `finally` cleanup of the dispatch leaves no tracked session and
an empty tracked snapshot — also on the exception path, where the error then
propagates — and a further `stopStreamIfActive` on the final state is a pure
no-op, so the teardown is idempotent. -/
theorem c4_teardown_guarantee (cfg : RouterConfig) (φ : Nat → Bool)
    (events : List (ReplyPayload × ReplyDispatchKind)) (generatorThrows : Bool) :
    (dispatchResponse cfg φ initialRouterState events
        generatorThrows).2.1.streamSession = none ∧
    (dispatchResponse cfg φ initialRouterState events
        generatorThrows).2.1.streamedText = [] ∧
    (generatorThrows = true →
      (dispatchResponse cfg φ initialRouterState events generatorThrows).1 =
        Except.error ()) ∧
    ∀ φ2, stopStreamIfActive φ2
        (dispatchResponse cfg φ initialRouterState events generatorThrows).2.1 =
      ((dispatchResponse cfg φ initialRouterState events generatorThrows).2.1,
        []) := by
  have hinv0 : initialRouterState.streamSession = none →
      initialRouterState.streamedText = [] := fun _ => rfl
  have hpe := processEvents_inv cfg φ events initialRouterState hinv0
  have hclears := stopStreamIfActive_clears φ
    (processEvents cfg φ initialRouterState events).1 hpe
  refine ⟨hclears.1, hclears.2, ?_, ?_⟩
  · intro hg
    simp [dispatchResponse, hg]
  · intro φ2
    exact stopStreamIfActive_none φ2 _ hclears.1

/-- C4 witness: teardown facts at a concrete configuration with an empty
event sequence and a throwing generator — the cleanup ran, the state is
clean, the error propagates, and a second stop is a pure no-op. -/
theorem c4_teardown_guarantee_witness :
    (dispatchResponse
        ⟨true, "C1".toList, ThreadTargetMode.all, none, some "123".toList,
          "NO_REPLY".toList⟩
        (fun _ => true) initialRouterState [] true).2.1.streamSession = none ∧
    (dispatchResponse
        ⟨true, "C1".toList, ThreadTargetMode.all, none, some "123".toList,
          "NO_REPLY".toList⟩
        (fun _ => true) initialRouterState [] true).1 = Except.error () ∧
    stopStreamIfActive (fun _ => true)
        (dispatchResponse
          ⟨true, "C1".toList, ThreadTargetMode.all, none, some "123".toList,
            "NO_REPLY".toList⟩
          (fun _ => true) initialRouterState [] true).2.1 =
      ((dispatchResponse
          ⟨true, "C1".toList, ThreadTargetMode.all, none, some "123".toList,
            "NO_REPLY".toList⟩
          (fun _ => true) initialRouterState [] true).2.1, []) :=
  have h := c4_teardown_guarantee
    ⟨true, "C1".toList, ThreadTargetMode.all, none, some "123".toList,
      "NO_REPLY".toList⟩
    (fun _ => true) [] true
  ⟨h.1, h.2.2.1 rfl, h.2.2.2 (fun _ => true)⟩
